import Mathlib

/-!
# shoeStore: a verification development

A shallow embedding of `main.go`: five HTTP handlers over one MongoDB collection of
`Shoe` documents.  Each handler is a function from the collection, the environment of
the request (the pseudo-random draw and the outcome of each driver call) and the
request to the collection afterwards and the response.  Handlers run one at a time.
-/

namespace ShoeStore

/-! ## Data model -/

/-- A Go `float64`, kept as its IEEE-754 bit pattern.  The handlers only copy prices, they
never compute with them; the zero value `0.0` has the bit pattern `0`. -/
structure Float64 where
  bits : Nat
  deriving DecidableEq, Repr

/-- The `Shoe` struct (main.go lines 17-23).  `Size` is a Go `int`; no arithmetic is done
on it. -/
structure Shoe where
  ID : String
  Name : String
  Brand : String
  Size : Int
  Price : Float64
  deriving DecidableEq, Repr

/-- The zero value of `Shoe`, what `var shoe Shoe` declares. -/
def Shoe.zero : Shoe := ⟨"", "", "", 0, ⟨0⟩⟩

/-- The keys of a JSON object that the `json` tags of `Shoe` name, each present or
absent. -/
structure ShoeJSON where
  id : Option String
  name : Option String
  brand : Option String
  size : Option Int
  price : Option Float64
  deriving DecidableEq, Repr

/-- An HTTP request as the handlers read it: the verb, the path, the parsed query string
and what `json.NewDecoder(r.Body).Decode` finds in the body, either an error (malformed
JSON, a value of the wrong type, an empty body) or an object. -/
structure Request where
  Method : String
  Path : String
  Query : List (String × String)
  Body : Except String ShoeJSON

/-- What a handler wrote after the status line: nothing, the message given to
`http.Error` (sent as plain text with a newline after it), or the value given to
`json.NewEncoder(w).Encode` (for `getAllShoes` a slice, which is nil and encoded as
`null` when the collection is empty). -/
inductive Payload where
  | empty
  | text (msg : String)
  | shoe (s : Shoe)
  | shoes (l : List Shoe)
  deriving DecidableEq, Repr

/-- The status code and payload of a response. -/
structure Response where
  status : Nat
  body : Payload
  deriving DecidableEq, Repr

/-- The collection `shoeStore.shoes`, its documents in natural order.  Only this program
writes to it, so every document decodes to a `Shoe`. -/
abbrev Collection := List Shoe

/-- The environment of one request: the integer the pseudo-random source yields, and for
the first and second driver call of the handler the error the driver reports, if any
(a lost connection, a server error). -/
structure Env where
  draw : Nat
  fault1 : Option String
  fault2 : Option String
  deriving DecidableEq, Repr

/-! ## Library behaviour -/

def StatusOK : Nat := 200
def StatusBadRequest : Nat := 400
def StatusNotFound : Nat := 404
def StatusMethodNotAllowed : Nat := 405
def StatusInternalServerError : Nat := 500

def MethodGet : String := "GET"
def MethodPost : String := "POST"
def MethodPut : String := "PUT"
def MethodDelete : String := "DELETE"

/-- The error of `FindOne(...).Decode` when no document matches. -/
def ErrNoDocuments : String := "mongo: no documents in result"

/-- `http.Error(w, msg, code)`. -/
def httpError (msg : String) (code : Nat) : Response := ⟨code, Payload.text msg⟩

/-- `url.Values.Get`: the first value of the key, `""` when the key is absent. -/
def queryGet (key : String) : List (String × String) → String
  | [] => ""
  | (k, v) :: rest => if k = key then v else queryGet key rest

/-- `Decode(&shoe)`: the keys present in the body overwrite the fields of `shoe`, the
others are left as they are. -/
def decode (body : Except String ShoeJSON) (shoe : Shoe) : Except String Shoe :=
  match body with
  | Except.error e => Except.error e
  | Except.ok j => Except.ok
      ⟨j.id.getD shoe.ID, j.name.getD shoe.Name, j.brand.getD shoe.Brand,
       j.size.getD shoe.Size, j.price.getD shoe.Price⟩

/-- `InsertOne`: the document is added after the others. -/
def insertOne (fault : Option String) (c : Collection) (doc : Shoe) :
    Except String Collection :=
  match fault with
  | some e => Except.error e
  | none => Except.ok (c ++ [doc])

/-- `Find` with the empty filter followed by the cursor loop: all documents. -/
def find (fault : Option String) (c : Collection) : Except String (List Shoe) :=
  match fault with
  | some e => Except.error e
  | none => Except.ok c

/-- The first document whose `id` field equals `id`. -/
def firstMatch (id : String) : Collection → Option Shoe
  | [] => none
  | x :: rest => if x.ID = id then some x else firstMatch id rest

/-- `FindOne(ctx, bson.M{"id": id}).Decode(&shoe)`. -/
def findOne (fault : Option String) (c : Collection) (id : String) : Except String Shoe :=
  match fault with
  | some e => Except.error e
  | none =>
    match firstMatch id c with
    | some x => Except.ok x
    | none => Except.error ErrNoDocuments

/-- The `$set` of `UpdateOne` on the first matching document, with the matched count. -/
def setFirst (id name brand : String) (size : Int) (price : Float64) :
    Collection → Collection × Nat
  | [] => ([], 0)
  | x :: rest =>
    if x.ID = id then (⟨x.ID, name, brand, size, price⟩ :: rest, 1)
    else ((x :: (setFirst id name brand size price rest).1),
          (setFirst id name brand size price rest).2)

/-- `UpdateOne(ctx, bson.M{"id": id}, bson.M{"$set": ...})`: the collection afterwards and
`MatchedCount`.  No match is not an error. -/
def updateOne (fault : Option String) (c : Collection) (id name brand : String)
    (size : Int) (price : Float64) : Except String (Collection × Nat) :=
  match fault with
  | some e => Except.error e
  | none => Except.ok (setFirst id name brand size price c)

/-- The collection without its first document whose `id` equals `id`, with the deleted
count. -/
def removeFirst (id : String) : Collection → Collection × Nat
  | [] => ([], 0)
  | x :: rest =>
    if x.ID = id then (rest, 1)
    else ((x :: (removeFirst id rest).1), (removeFirst id rest).2)

/-- `DeleteOne(ctx, bson.M{"id": id})`: the collection afterwards and `DeletedCount`.  No
match is not an error. -/
def deleteOne (fault : Option String) (c : Collection) (id : String) :
    Except String (Collection × Nat) :=
  match fault with
  | some e => Except.error e
  | none => Except.ok (removeFirst id c)

/-! ## The program -/

/-- `generateID` (main.go lines 200-203): `rand.Intn(1000000)` lies in `[0, 1000000)`, it
is the draw reduced to that range, printed with `%d`. -/
def generateID (draw : Nat) : String := Nat.repr (draw % 1000000)

/-- `updateShoeByID` (main.go lines 53-102). -/
def updateShoeByID (c : Collection) (env : Env) (r : Request) : Collection × Response :=
  if r.Method ≠ MethodPut then
    (c, httpError "Only PUT method is supported." StatusMethodNotAllowed)
  else
    let id := queryGet "id" r.Query
    if id = "" then (c, httpError "ID is required." StatusBadRequest)
    else
      match decode r.Body Shoe.zero with
      | Except.error e => (c, httpError e StatusInternalServerError)
      | Except.ok updatedShoe =>
        match updateOne env.fault1 c id updatedShoe.Name updatedShoe.Brand
            updatedShoe.Size updatedShoe.Price with
        | Except.error e =>
          (c, httpError ("Error updating shoe: " ++ e) StatusInternalServerError)
        | Except.ok (c', matchedCount) =>
          if matchedCount = 0 then (c', httpError "Shoe not found." StatusNotFound)
          else
            match findOne env.fault2 c' id with
            | Except.error e =>
              (c', httpError ("Error retrieving updated shoe: " ++ e)
                StatusInternalServerError)
            | Except.ok shoe => (c', ⟨StatusOK, Payload.shoe shoe⟩)

/-- `createShoeHandler` (main.go lines 104-127). -/
def createShoeHandler (c : Collection) (env : Env) (r : Request) : Collection × Response :=
  if r.Method ≠ MethodPost then
    (c, httpError "Only POST method is supported." StatusMethodNotAllowed)
  else
    match decode r.Body Shoe.zero with
    | Except.error e => (c, httpError e StatusInternalServerError)
    | Except.ok decoded =>
      let shoe : Shoe := { decoded with ID := generateID env.draw }
      match insertOne env.fault1 c shoe with
      | Except.error e => (c, httpError e StatusInternalServerError)
      | Except.ok c' => (c', ⟨StatusOK, Payload.shoe shoe⟩)

/-- `getAllShoes` (main.go lines 129-154). -/
def getAllShoes (c : Collection) (env : Env) (r : Request) : Collection × Response :=
  if r.Method ≠ MethodGet then
    (c, httpError "Only GET method is supported." StatusMethodNotAllowed)
  else
    match find env.fault1 c with
    | Except.error e => (c, httpError e StatusInternalServerError)
    | Except.ok shoes => (c, ⟨StatusOK, Payload.shoes shoes⟩)

/-- `getShoeByID` (main.go lines 156-177). -/
def getShoeByID (c : Collection) (env : Env) (r : Request) : Collection × Response :=
  if r.Method ≠ MethodGet then
    (c, httpError "Only GET method is supported." StatusMethodNotAllowed)
  else
    let id := queryGet "id" r.Query
    if id = "" then (c, httpError "ID is required." StatusBadRequest)
    else
      match findOne env.fault1 c id with
      | Except.error _ => (c, httpError "Shoe not found." StatusNotFound)
      | Except.ok shoe => (c, ⟨StatusOK, Payload.shoe shoe⟩)

/-- `deleteShoeByID` (main.go lines 179-198). -/
def deleteShoeByID (c : Collection) (env : Env) (r : Request) : Collection × Response :=
  if r.Method ≠ MethodDelete then
    (c, httpError "Only DELETE method is supported." StatusMethodNotAllowed)
  else
    let id := queryGet "id" r.Query
    if id = "" then (c, httpError "ID is required." StatusBadRequest)
    else
      match deleteOne env.fault1 c id with
      | Except.error _ => (c, httpError "Shoe not found." StatusNotFound)
      | Except.ok (c', _) => (c', ⟨StatusOK, Payload.empty⟩)

/-- The routes `main` registers (main.go lines 40-44); any other path gets the mux's own
not-found page. -/
def serve (c : Collection) (env : Env) (r : Request) : Collection × Response :=
  if r.Path = "/create" then createShoeHandler c env r
  else if r.Path = "/getall" then getAllShoes c env r
  else if r.Path = "/getbyid" then getShoeByID c env r
  else if r.Path = "/delete" then deleteShoeByID c env r
  else if r.Path = "/update" then updateShoeByID c env r
  else (c, httpError "404 page not found" StatusNotFound)

/-- The collection after a sequence of requests, served one after the other. -/
def run (c : Collection) : List (Env × Request) → Collection
  | [] => c
  | (env, r) :: rest => run (serve c env r).1 rest

/-! ## Requests and predicates used in the statements -/

def noFault (d : Nat) : Env := ⟨d, none, none⟩

def postCreate (body : Except String ShoeJSON) : Request := ⟨"POST", "/create", [], body⟩
def getAll : Request := ⟨"GET", "/getall", [], Except.error "EOF"⟩
def getByID (id : String) : Request := ⟨"GET", "/getbyid", [("id", id)], Except.error "EOF"⟩
def putUpdate (id : String) (body : Except String ShoeJSON) : Request :=
  ⟨"PUT", "/update", [("id", id)], body⟩
def deleteByID (id : String) : Request :=
  ⟨"DELETE", "/delete", [("id", id)], Except.error "EOF"⟩

/-- Some stored record has the id. -/
def hasID (c : Collection) (id : String) : Prop := ∃ x ∈ c, x.ID = id

instance (c : Collection) (id : String) : Decidable (hasID c id) := by
  unfold hasID; infer_instance

/-- No two stored records have the same id. -/
def uniqueIDs (c : Collection) : Prop := (c.map Shoe.ID).Nodup

instance (c : Collection) : Decidable (uniqueIDs c) := by
  unfold uniqueIDs; infer_instance

/-- How many stored records have the id. -/
def idCount (c : Collection) (id : String) : Nat := List.countP (fun x => decide (x.ID = id)) c

/-- The record that create stores for a decoded body: the generated id and the four fields
of the body, a field the body lacks being the zero value. -/
def created (draw : Nat) (j : ShoeJSON) : Shoe :=
  ⟨generateID draw, j.name.getD "", j.brand.getD "", j.size.getD 0, j.price.getD ⟨0⟩⟩

/-- Every create of the sequence, at the moment it is served, generates an id that no
stored record has. -/
def freshCreates (c : Collection) : List (Env × Request) → Prop
  | [] => True
  | (env, r) :: rest =>
    (r.Path = "/create" → ¬ hasID c (generateID env.draw)) ∧
      freshCreates (serve c env r).1 rest

instance freshCreatesDecidable :
    (c : Collection) → (l : List (Env × Request)) → Decidable (freshCreates c l)
  | _, [] => isTrue trivial
  | c, (env, r) :: rest =>
    have := freshCreatesDecidable (serve c env r).1 rest
    inferInstanceAs (Decidable ((r.Path = "/create" → ¬ hasID c (generateID env.draw)) ∧
      freshCreates (serve c env r).1 rest))

/-- The decimal digits of a number, the most significant first, with no sign and no
padding: what the verb `%d` prints for a non-negative integer. -/
def decimalDigits (n : Nat) : List Char :=
  if n < 10 then [Nat.digitChar n]
  else decimalDigits (n / 10) ++ [Nat.digitChar (n % 10)]
decreasing_by omega

/-- Reading digits from the left onto an accumulator; a character that is not an ASCII
digit makes the reading fail. -/
def parseDigits : Nat → List Char → Option Nat
  | acc, [] => some acc
  | acc, ch :: rest =>
    if ch.isDigit then parseDigits (acc * 10 + (ch.toNat - 48)) rest else none

/-- Parsing a string as an unsigned decimal number; the empty string is not a number. -/
def parseDecimal (s : String) : Option Nat :=
  if s.data = [] then none else parseDigits 0 s.data

/-! ## Lookup, update and removal of the first match -/

theorem hasID_cons {x : Shoe} {rest : Collection} {id : String} :
    hasID (x :: rest) id ↔ x.ID = id ∨ hasID rest id := by
  simp [hasID]

theorem hasID_append {a b : Collection} {id : String} :
    hasID (a ++ b) id ↔ hasID a id ∨ hasID b id := by
  simp only [hasID, List.mem_append]
  constructor
  · rintro ⟨x, hx | hx, e⟩
    · exact Or.inl ⟨x, hx, e⟩
    · exact Or.inr ⟨x, hx, e⟩
  · rintro (⟨x, hx, e⟩ | ⟨x, hx, e⟩)
    · exact ⟨x, Or.inl hx, e⟩
    · exact ⟨x, Or.inr hx, e⟩

theorem firstMatch_append_of_not_hasID {id : String} {c : Collection} (h : ¬ hasID c id)
    (l : Collection) : firstMatch id (c ++ l) = firstMatch id l := by
  induction c with
  | nil => rfl
  | cons x rest ih =>
    rw [hasID_cons, not_or] at h
    simp [firstMatch, h.1, ih h.2]

theorem removeFirst_append_of_not_hasID {id : String} {c : Collection} (h : ¬ hasID c id)
    (l : Collection) :
    removeFirst id (c ++ l) = (c ++ (removeFirst id l).1, (removeFirst id l).2) := by
  induction c with
  | nil => rfl
  | cons x rest ih =>
    rw [hasID_cons, not_or] at h
    simp [removeFirst, h.1, ih h.2]

theorem setFirst_of_hasID {id : String} {c : Collection} (h : hasID c id)
    (name brand : String) (size : Int) (price : Float64) :
    (setFirst id name brand size price c).2 = 1 ∧
    firstMatch id (setFirst id name brand size price c).1
      = some ⟨id, name, brand, size, price⟩ := by
  induction c with
  | nil => exact absurd h (by simp [hasID])
  | cons x rest ih =>
    by_cases hx : x.ID = id
    · simp [setFirst, firstMatch, hx]
    · have hr : hasID rest id := (hasID_cons.mp h).resolve_left hx
      simp [setFirst, firstMatch, hx, ih hr]

theorem setFirst_ids (id name brand : String) (size : Int) (price : Float64)
    (c : Collection) :
    (setFirst id name brand size price c).1.map Shoe.ID = c.map Shoe.ID := by
  induction c with
  | nil => rfl
  | cons x rest ih =>
    by_cases hx : x.ID = id
    · simp [setFirst, hx]
    · simp [setFirst, hx, ih]

theorem removeFirst_sublist (id : String) (c : Collection) :
    List.Sublist (removeFirst id c).1 c := by
  induction c with
  | nil => exact List.Sublist.slnil
  | cons x rest ih =>
    by_cases hx : x.ID = id
    · simp [removeFirst, hx]
    · simp [removeFirst, hx, ih]

theorem not_hasID_of_idCount_eq_zero {id : String} {c : Collection}
    (h : idCount c id = 0) : ¬ hasID c id := by
  rintro ⟨x, hx, e⟩
  have : 0 < idCount c id := List.countP_pos_iff.mpr ⟨x, hx, by simpa using e⟩
  omega

theorem removeFirst_of_idCount_eq_one {id : String} {c : Collection}
    (h : idCount c id = 1) : ¬ hasID (removeFirst id c).1 id := by
  induction c with
  | nil => simp [idCount] at h
  | cons x rest ih =>
    by_cases hx : x.ID = id
    · have h0 : idCount rest id = 0 := by
        simp [idCount, List.countP_cons, hx] at h
        simpa [idCount] using h
      simpa [removeFirst, hx] using not_hasID_of_idCount_eq_zero h0
    · have h1 : idCount rest id = 1 := by
        simp [idCount, List.countP_cons, hx] at h
        simpa [idCount] using h
      have e : removeFirst id (x :: rest)
          = (x :: (removeFirst id rest).1, (removeFirst id rest).2) := by
        simp [removeFirst, hx]
      rw [e, hasID_cons, not_or]
      exact ⟨hx, ih h1⟩

/-! ## Decimal rendering -/

theorem toDigitsCore_eq_decimalDigits :
    ∀ (fuel n : Nat) (ds : List Char), n < fuel →
      Nat.toDigitsCore 10 fuel n ds = decimalDigits n ++ ds := by
  intro fuel
  induction fuel with
  | zero => intro n ds h; omega
  | succ f ih =>
    intro n ds h
    rw [decimalDigits]
    by_cases h10 : n < 10
    · have hq : n / 10 = 0 := by omega
      have hm : n % 10 = n := by omega
      simp [Nat.toDigitsCore, hq, hm, h10]
    · have hq : n / 10 ≠ 0 := by omega
      have hlt : n / 10 < f := by omega
      simp [Nat.toDigitsCore, hq, h10, ih (n / 10) _ hlt]

theorem repr_data (n : Nat) : (Nat.repr n).data = decimalDigits n := by
  simp [Nat.repr, Nat.toDigits, List.asString, toDigitsCore_eq_decimalDigits (n + 1) n [] (by omega)]

theorem decimalDigits_ne_nil (n : Nat) : decimalDigits n ≠ [] := by
  rw [decimalDigits]
  split <;> simp

theorem digitChar_spec (d : Nat) (h : d < 10) :
    (Nat.digitChar d).isDigit = true ∧ (Nat.digitChar d).toNat - 48 = d ∧
      (Nat.digitChar d = '0' → d = 0) := by
  interval_cases d <;> decide

theorem decimalDigits_all_digit (n : Nat) : ∀ ch ∈ decimalDigits n, ch.isDigit = true := by
  induction n using Nat.strong_induction_on with
  | _ n ih =>
    rw [decimalDigits]
    by_cases h10 : n < 10
    · simpa [h10] using (digitChar_spec n h10).1
    · intro ch hch
      simp only [h10, if_false, List.mem_append, List.mem_singleton] at hch
      rcases hch with hch | hch
      · exact ih (n / 10) (by omega) ch hch
      · rw [hch]; exact (digitChar_spec (n % 10) (by omega)).1

theorem decimalDigits_length_le (k : Nat) :
    ∀ n : Nat, n < 10 ^ (k + 1) → (decimalDigits n).length ≤ k + 1 := by
  induction k with
  | zero =>
    intro n h
    rw [decimalDigits]
    have h10 : n < 10 := by simpa using h
    simp [h10]
  | succ k ih =>
    intro n h
    rw [decimalDigits]
    by_cases h10 : n < 10
    · simp [h10]
    · have hq : n / 10 < 10 ^ (k + 1) := by
        rw [Nat.div_lt_iff_lt_mul (by decide)]
        calc n < 10 ^ (k + 1 + 1) := h
          _ = 10 ^ (k + 1) * 10 := by rw [pow_succ]
      have := ih (n / 10) hq
      simp [h10]
      omega

theorem decimalDigits_head (n : Nat) (hn : n ≠ 0) : (decimalDigits n).head? ≠ some '0' := by
  induction n using Nat.strong_induction_on with
  | _ n ih =>
    rw [decimalDigits]
    by_cases h10 : n < 10
    · simp only [h10, if_true, List.head?_cons, ne_eq, Option.some.injEq]
      exact fun e => hn ((digitChar_spec n h10).2.2 e)
    · simp only [h10, if_false]
      have hq : n / 10 ≠ 0 := by omega
      have hlt : n / 10 < n := by omega
      have := ih (n / 10) hlt hq
      rw [List.head?_append_of_ne_nil _ (decimalDigits_ne_nil _)]
      exact this

theorem parseDigits_snoc (l : List Char) (ch : Char) :
    ∀ acc : Nat, parseDigits acc (l ++ [ch])
      = (parseDigits acc l).bind
          (fun m => if ch.isDigit then some (m * 10 + (ch.toNat - 48)) else none) := by
  induction l with
  | nil => intro acc; simp [parseDigits]
  | cons x rest ih =>
    intro acc
    by_cases hx : x.isDigit = true
    · simp [parseDigits, hx, ih]
    · simp [parseDigits, hx]

theorem parseDigits_decimalDigits (n : Nat) : parseDigits 0 (decimalDigits n) = some n := by
  induction n using Nat.strong_induction_on with
  | _ n ih =>
    rw [decimalDigits]
    by_cases h10 : n < 10
    · obtain ⟨hd, hv, _⟩ := digitChar_spec n h10
      simp [h10, parseDigits, hd, hv]
    · obtain ⟨hd, hv, _⟩ := digitChar_spec (n % 10) (by omega)
      simp only [h10, if_false]
      rw [parseDigits_snoc, ih (n / 10) (by omega)]
      simp only [Option.some_bind, hd, if_true, hv, Option.some.injEq]
      omega

theorem generateID_ne_empty (draw : Nat) : generateID draw ≠ "" := by
  intro h
  have hd : (generateID draw).data = [] := by rw [h]
  rw [generateID, repr_data] at hd
  exact decimalDigits_ne_nil _ hd

theorem firstMatch_eq_none {id : String} {c : Collection} (h : ¬ hasID c id) :
    firstMatch id c = none := by
  induction c with
  | nil => rfl
  | cons x rest ih =>
    have hx : x.ID ≠ id := fun e => h ⟨x, List.mem_cons_self _ _, e⟩
    have hr : ¬ hasID rest id := fun ⟨y, hy, e⟩ => h ⟨y, List.mem_cons_of_mem _ hy, e⟩
    simp [firstMatch, hx, ih hr]

theorem setFirst_of_not_hasID {id : String} {c : Collection} (h : ¬ hasID c id)
    (name brand : String) (size : Int) (price : Float64) :
    setFirst id name brand size price c = (c, 0) := by
  induction c with
  | nil => rfl
  | cons x rest ih =>
    have hx : x.ID ≠ id := fun e => h ⟨x, List.mem_cons_self _ _, e⟩
    have hr : ¬ hasID rest id := fun ⟨y, hy, e⟩ => h ⟨y, List.mem_cons_of_mem _ hy, e⟩
    simp [setFirst, hx, ih hr]

theorem removeFirst_of_not_hasID {id : String} {c : Collection} (h : ¬ hasID c id) :
    removeFirst id c = (c, 0) := by
  induction c with
  | nil => rfl
  | cons x rest ih =>
    have hx : x.ID ≠ id := fun e => h ⟨x, List.mem_cons_self _ _, e⟩
    have hr : ¬ hasID rest id := fun ⟨y, hy, e⟩ => h ⟨y, List.mem_cons_of_mem _ hy, e⟩
    simp [removeFirst, hx, ih hr]

/-! ## Rejected requests -/

/-- C7: each handler answers a request whose verb is not its own with 405 and the message
naming its verb, whatever the query and the body, and leaves the collection as it was;
the same holds of the route that `main` binds the handler to. -/
theorem method_enforcement (c : Collection) (env : Env) (r : Request) :
    (r.Method ≠ "POST" →
      createShoeHandler c env r = (c, ⟨405, Payload.text "Only POST method is supported."⟩) ∧
      (r.Path = "/create" →
        serve c env r = (c, ⟨405, Payload.text "Only POST method is supported."⟩))) ∧
    (r.Method ≠ "GET" →
      getAllShoes c env r = (c, ⟨405, Payload.text "Only GET method is supported."⟩) ∧
      (r.Path = "/getall" →
        serve c env r = (c, ⟨405, Payload.text "Only GET method is supported."⟩))) ∧
    (r.Method ≠ "GET" →
      getShoeByID c env r = (c, ⟨405, Payload.text "Only GET method is supported."⟩) ∧
      (r.Path = "/getbyid" →
        serve c env r = (c, ⟨405, Payload.text "Only GET method is supported."⟩))) ∧
    (r.Method ≠ "PUT" →
      updateShoeByID c env r = (c, ⟨405, Payload.text "Only PUT method is supported."⟩) ∧
      (r.Path = "/update" →
        serve c env r = (c, ⟨405, Payload.text "Only PUT method is supported."⟩))) ∧
    (r.Method ≠ "DELETE" →
      deleteShoeByID c env r = (c, ⟨405, Payload.text "Only DELETE method is supported."⟩) ∧
      (r.Path = "/delete" →
        serve c env r = (c, ⟨405, Payload.text "Only DELETE method is supported."⟩))) := by
  refine ⟨fun h => ?_, fun h => ?_, fun h => ?_, fun h => ?_, fun h => ?_⟩
  · have e : createShoeHandler c env r
        = (c, ⟨405, Payload.text "Only POST method is supported."⟩) := by
      simp [createShoeHandler, MethodPost, h, httpError, StatusMethodNotAllowed]
    exact ⟨e, fun hp => by simp [serve, hp, e]⟩
  · have e : getAllShoes c env r
        = (c, ⟨405, Payload.text "Only GET method is supported."⟩) := by
      simp [getAllShoes, MethodGet, h, httpError, StatusMethodNotAllowed]
    exact ⟨e, fun hp => by simp [serve, hp, e]⟩
  · have e : getShoeByID c env r
        = (c, ⟨405, Payload.text "Only GET method is supported."⟩) := by
      simp [getShoeByID, MethodGet, h, httpError, StatusMethodNotAllowed]
    exact ⟨e, fun hp => by simp [serve, hp, e]⟩
  · have e : updateShoeByID c env r
        = (c, ⟨405, Payload.text "Only PUT method is supported."⟩) := by
      simp [updateShoeByID, MethodPut, h, httpError, StatusMethodNotAllowed]
    exact ⟨e, fun hp => by simp [serve, hp, e]⟩
  · have e : deleteShoeByID c env r
        = (c, ⟨405, Payload.text "Only DELETE method is supported."⟩) := by
      simp [deleteShoeByID, MethodDelete, h, httpError, StatusMethodNotAllowed]
    exact ⟨e, fun hp => by simp [serve, hp, e]⟩

/-- C8: with the accepted verb and an `id` parameter that is absent or empty, get, update
and delete answer 400 "ID is required." and leave the collection as it was; update does
so for every body, a malformed one included. -/
theorem missing_id (c : Collection) (env : Env) (r : Request)
    (hq : queryGet "id" r.Query = "") :
    (r.Method = "GET" →
      getShoeByID c env r = (c, ⟨400, Payload.text "ID is required."⟩)) ∧
    (r.Method = "PUT" →
      updateShoeByID c env r = (c, ⟨400, Payload.text "ID is required."⟩)) ∧
    (r.Method = "DELETE" →
      deleteShoeByID c env r = (c, ⟨400, Payload.text "ID is required."⟩)) := by
  refine ⟨fun h => ?_, fun h => ?_, fun h => ?_⟩
  · simp [getShoeByID, MethodGet, h, hq, httpError, StatusBadRequest]
  · simp [updateShoeByID, MethodPut, h, hq, httpError, StatusBadRequest]
  · simp [deleteShoeByID, MethodDelete, h, hq, httpError, StatusBadRequest]

/-- C5: for a non-empty id that no stored record has, get answers 404 "Shoe not found."
whatever the driver reports, and update with a decodable body answers 404
"Shoe not found." when `UpdateOne` reports no error (it matched zero documents); the
collection is left as it was, nothing is inserted. -/
theorem not_found_get_update (c : Collection) (env : Env) (r : Request) (id : String)
    (hid : id ≠ "") (hq : queryGet "id" r.Query = id) (hno : ¬ hasID c id) :
    (r.Method = "GET" →
      getShoeByID c env r = (c, ⟨404, Payload.text "Shoe not found."⟩)) ∧
    (r.Method = "PUT" → ∀ j, r.Body = Except.ok j → env.fault1 = none →
      updateShoeByID c env r = (c, ⟨404, Payload.text "Shoe not found."⟩)) := by
  refine ⟨fun h => ?_, fun h j hb hf => ?_⟩
  · cases hfl : env.fault1 with
    | some e =>
      simp [getShoeByID, MethodGet, h, hq, hid, findOne, hfl, httpError, StatusNotFound]
    | none =>
      simp [getShoeByID, MethodGet, h, hq, hid, findOne, hfl, firstMatch_eq_none hno,
        httpError, StatusNotFound]
  · simp [updateShoeByID, MethodPut, h, hq, hid, hb, decode, updateOne, hf,
      setFirst_of_not_hasID hno, httpError, StatusNotFound]

/-! ## Create, update, delete and what a later read shows -/

theorem create_ok (c : Collection) (env : Env) (j : ShoeJSON) (hf : env.fault1 = none) :
    createShoeHandler c env (postCreate (Except.ok j))
      = (c ++ [created env.draw j], ⟨200, Payload.shoe (created env.draw j)⟩) := by
  simp [createShoeHandler, postCreate, MethodPost, decode, Shoe.zero, insertOne, hf, created,
    StatusOK]

theorem create_fault (c : Collection) (env : Env) (j : ShoeJSON) (e : String)
    (hf : env.fault1 = some e) :
    createShoeHandler c env (postCreate (Except.ok j)) = (c, ⟨500, Payload.text e⟩) := by
  simp [createShoeHandler, postCreate, MethodPost, decode, Shoe.zero, insertOne, hf,
    httpError, StatusInternalServerError]

theorem get_found (c : Collection) (env : Env) (i : String) (x : Shoe) (hne : i ≠ "")
    (hf : env.fault1 = none) (hx : firstMatch i c = some x) :
    getShoeByID c env (getByID i) = (c, ⟨200, Payload.shoe x⟩) := by
  simp [getShoeByID, getByID, MethodGet, queryGet, hne, findOne, hf, hx, StatusOK]

theorem get_not_found (c : Collection) (env : Env) (i : String) (hne : i ≠ "")
    (hno : ¬ hasID c i) :
    getShoeByID c env (getByID i) = (c, ⟨404, Payload.text "Shoe not found."⟩) := by
  cases hfl : env.fault1 with
  | some e =>
    simp [getShoeByID, getByID, MethodGet, queryGet, hne, findOne, hfl, httpError,
      StatusNotFound]
  | none =>
    simp [getShoeByID, getByID, MethodGet, queryGet, hne, findOne, hfl,
      firstMatch_eq_none hno, httpError, StatusNotFound]

theorem delete_ok (c : Collection) (env : Env) (i : String) (hne : i ≠ "")
    (hf : env.fault1 = none) :
    deleteShoeByID c env (deleteByID i) = ((removeFirst i c).1, ⟨200, Payload.empty⟩) := by
  simp [deleteShoeByID, deleteByID, MethodDelete, queryGet, hne, deleteOne, hf, StatusOK]

theorem getAll_ok (c : Collection) (env : Env) (hf : env.fault1 = none) :
    getAllShoes c env getAll = (c, ⟨200, Payload.shoes c⟩) := by
  simp [getAllShoes, getAll, MethodGet, find, hf, StatusOK]

/-- C1 (amended): when the id that create generates is not yet the id of a stored record,
a POST /create that answers 200 returns the record with the four decoded fields and a
non-empty id, and a GET /getbyid with that id, served next by a healthy driver, answers
200 with that same record. -/
theorem create_get_round_trip (c : Collection) (env : Env) (j : ShoeJSON)
    (hok : (createShoeHandler c env (postCreate (Except.ok j))).2.status = 200)
    (hfresh : ¬ hasID c (generateID env.draw)) :
    (createShoeHandler c env (postCreate (Except.ok j))).2
        = ⟨200, Payload.shoe (created env.draw j)⟩ ∧
      (created env.draw j).ID ≠ "" ∧
      (created env.draw j).Name = j.name.getD "" ∧
      (created env.draw j).Brand = j.brand.getD "" ∧
      (created env.draw j).Size = j.size.getD 0 ∧
      (created env.draw j).Price = j.price.getD ⟨0⟩ ∧
      ∀ env2 : Env, env2.fault1 = none →
        getShoeByID (createShoeHandler c env (postCreate (Except.ok j))).1 env2
            (getByID (created env.draw j).ID)
          = ((createShoeHandler c env (postCreate (Except.ok j))).1,
              ⟨200, Payload.shoe (created env.draw j)⟩) := by
  have hf : env.fault1 = none := by
    cases hfl : env.fault1 with
    | none => rfl
    | some e => rw [create_fault c env j e hfl] at hok; simp at hok
  rw [create_ok c env j hf]
  refine ⟨rfl, generateID_ne_empty _, rfl, rfl, rfl, rfl, fun env2 h2 => ?_⟩
  refine get_found _ env2 _ _ (generateID_ne_empty _) h2 ?_
  show firstMatch (generateID env.draw) (c ++ [created env.draw j]) = _
  rw [firstMatch_append_of_not_hasID hfresh]
  simp [firstMatch, created]

/-- C1 as stated fails: in the collection left by one create that drew 7, a second create
drawing 7 answers 200 with the id "7" and its own fields, and the GET of "7" that
follows answers 200 with the fields of the first record. -/
theorem create_get_collision :
    run [] [(noFault 7, postCreate (Except.ok ⟨none, some "a", some "b", some 1, none⟩))]
        = [⟨"7", "a", "b", 1, ⟨0⟩⟩] ∧
      createShoeHandler [⟨"7", "a", "b", 1, ⟨0⟩⟩] (noFault 7)
          (postCreate (Except.ok ⟨none, some "c", some "d", some 2, none⟩))
        = ([⟨"7", "a", "b", 1, ⟨0⟩⟩, ⟨"7", "c", "d", 2, ⟨0⟩⟩],
            ⟨200, Payload.shoe ⟨"7", "c", "d", 2, ⟨0⟩⟩⟩) ∧
      getShoeByID [⟨"7", "a", "b", 1, ⟨0⟩⟩, ⟨"7", "c", "d", 2, ⟨0⟩⟩] (noFault 0) (getByID "7")
        = ([⟨"7", "a", "b", 1, ⟨0⟩⟩, ⟨"7", "c", "d", 2, ⟨0⟩⟩],
            ⟨200, Payload.shoe ⟨"7", "a", "b", 1, ⟨0⟩⟩⟩) := by
  decide

/-- C2: for a stored non-empty id `i` and a body that decodes, PUT /update?id=i served by
a healthy driver answers 200 with the record whose id is `i` and whose four other fields
are those of the body (zero values for the fields the body lacks, the id of the body
ignored); the GET of `i` that follows answers 200 with that same record, and the ids of
the collection are what they were. -/
theorem update_replaces_all (c : Collection) (env : Env) (i : String) (j : ShoeJSON)
    (hi : hasID c i) (hne : i ≠ "") (hf1 : env.fault1 = none) (hf2 : env.fault2 = none) :
    (updateShoeByID c env (putUpdate i (Except.ok j))).2
        = ⟨200, Payload.shoe ⟨i, j.name.getD "", j.brand.getD "", j.size.getD 0,
            j.price.getD ⟨0⟩⟩⟩ ∧
      (∀ env2 : Env, env2.fault1 = none →
        getShoeByID (updateShoeByID c env (putUpdate i (Except.ok j))).1 env2 (getByID i)
          = ((updateShoeByID c env (putUpdate i (Except.ok j))).1,
              ⟨200, Payload.shoe ⟨i, j.name.getD "", j.brand.getD "", j.size.getD 0,
                j.price.getD ⟨0⟩⟩⟩)) ∧
      (updateShoeByID c env (putUpdate i (Except.ok j))).1.map Shoe.ID = c.map Shoe.ID := by
  obtain ⟨hcount, hfirst⟩ :=
    setFirst_of_hasID hi (j.name.getD "") (j.brand.getD "") (j.size.getD 0) (j.price.getD ⟨0⟩)
  have e : updateShoeByID c env (putUpdate i (Except.ok j))
      = ((setFirst i (j.name.getD "") (j.brand.getD "") (j.size.getD 0)
            (j.price.getD ⟨0⟩) c).1,
          ⟨200, Payload.shoe ⟨i, j.name.getD "", j.brand.getD "", j.size.getD 0,
            j.price.getD ⟨0⟩⟩⟩) := by
    simp [updateShoeByID, putUpdate, MethodPut, queryGet, hne, decode, Shoe.zero, updateOne,
      hf1, hf2, hcount, findOne, hfirst, StatusOK]
  rw [e]
  exact ⟨rfl, fun env2 h2 => get_found _ env2 i _ hne h2 hfirst, setFirst_ids _ _ _ _ _ _⟩

theorem delete_missing_id (c : Collection) (env : Env) :
    deleteShoeByID c env (deleteByID "") = (c, ⟨400, Payload.text "ID is required."⟩) := by
  simp [deleteShoeByID, deleteByID, MethodDelete, queryGet, httpError, StatusBadRequest]

theorem delete_fault (c : Collection) (env : Env) (i e : String) (hne : i ≠ "")
    (hf : env.fault1 = some e) :
    deleteShoeByID c env (deleteByID i) = (c, ⟨404, Payload.text "Shoe not found."⟩) := by
  simp [deleteShoeByID, deleteByID, MethodDelete, queryGet, hne, deleteOne, hf, httpError,
    StatusNotFound]

theorem getAll_body (c : Collection) (env : Env) (l : List Shoe)
    (h : (getAllShoes c env getAll).2.body = Payload.shoes l) : l = c := by
  cases hfl : env.fault1 with
  | some e =>
    simp [getAllShoes, getAll, MethodGet, find, hfl, httpError] at h
  | none =>
    rw [getAll_ok c env hfl] at h
    simpa using h.symm

/-- C3 (amended): when exactly one stored record has the id `i` and DELETE /delete?id=i
answers 200, no stored record has the id `i` afterwards: the GET of `i` that follows
answers 404 "Shoe not found." whatever the driver reports, GET /getall served by a
healthy driver answers 200 with the whole collection, and no array that GET /getall
returns holds a record with the id `i`. -/
theorem delete_removes_record (c : Collection) (env : Env) (i : String)
    (h1 : idCount c i = 1)
    (hok : (deleteShoeByID c env (deleteByID i)).2.status = 200) :
    ¬ hasID (deleteShoeByID c env (deleteByID i)).1 i ∧
      (∀ env2 : Env,
        getShoeByID (deleteShoeByID c env (deleteByID i)).1 env2 (getByID i)
          = ((deleteShoeByID c env (deleteByID i)).1,
              ⟨404, Payload.text "Shoe not found."⟩)) ∧
      (∀ env3 : Env, env3.fault1 = none →
        getAllShoes (deleteShoeByID c env (deleteByID i)).1 env3 getAll
          = ((deleteShoeByID c env (deleteByID i)).1,
              ⟨200, Payload.shoes (deleteShoeByID c env (deleteByID i)).1⟩)) ∧
      (∀ (env3 : Env) (l : List Shoe),
        (getAllShoes (deleteShoeByID c env (deleteByID i)).1 env3 getAll).2.body
            = Payload.shoes l →
          ¬ hasID l i) := by
  have hne : i ≠ "" := by
    intro e
    rw [e, delete_missing_id] at hok
    simp at hok
  have hf : env.fault1 = none := by
    cases hfl : env.fault1 with
    | none => rfl
    | some e => rw [delete_fault c env i e hne hfl] at hok; simp at hok
  rw [delete_ok c env i hne hf]
  have hgone : ¬ hasID (removeFirst i c).1 i := removeFirst_of_idCount_eq_one h1
  refine ⟨hgone, fun env2 => get_not_found _ env2 i hne hgone,
    fun env3 h3 => getAll_ok _ env3 h3, fun env3 l hl => ?_⟩
  rw [getAll_body _ env3 l hl]
  exact hgone

/-- C3 as stated fails: two creates that both drew 7 leave two records with the id "7";
DELETE /delete?id=7 answers 200 and removes the first only, so the GET of "7" that
follows answers 200 and GET /getall still returns a record with the id "7". -/
theorem delete_leaves_duplicate :
    run [] [(noFault 7, postCreate (Except.ok ⟨none, some "a", some "b", some 1, none⟩)),
            (noFault 7, postCreate (Except.ok ⟨none, some "c", some "d", some 2, none⟩))]
        = [⟨"7", "a", "b", 1, ⟨0⟩⟩, ⟨"7", "c", "d", 2, ⟨0⟩⟩] ∧
      hasID [⟨"7", "a", "b", 1, ⟨0⟩⟩, ⟨"7", "c", "d", 2, ⟨0⟩⟩] "7" ∧
      deleteShoeByID [⟨"7", "a", "b", 1, ⟨0⟩⟩, ⟨"7", "c", "d", 2, ⟨0⟩⟩] (noFault 0)
          (deleteByID "7")
        = ([⟨"7", "c", "d", 2, ⟨0⟩⟩], ⟨200, Payload.empty⟩) ∧
      getShoeByID [⟨"7", "c", "d", 2, ⟨0⟩⟩] (noFault 0) (getByID "7")
        = ([⟨"7", "c", "d", 2, ⟨0⟩⟩], ⟨200, Payload.shoe ⟨"7", "c", "d", 2, ⟨0⟩⟩⟩) ∧
      getAllShoes [⟨"7", "c", "d", 2, ⟨0⟩⟩] (noFault 0) getAll
        = ([⟨"7", "c", "d", 2, ⟨0⟩⟩], ⟨200, Payload.shoes [⟨"7", "c", "d", 2, ⟨0⟩⟩]⟩) := by
  decide

/-- C6 fails on the code: on the empty collection, with a healthy driver, DELETE
/delete?id=42 answers 200 with an empty body, where PUT /update?id=42 answers 404
"Shoe not found."; the collection stays empty in both. -/
theorem delete_of_absent_id_answers_ok :
    deleteShoeByID [] (noFault 0) (deleteByID "42") = ([], ⟨200, Payload.empty⟩) ∧
      updateShoeByID [] (noFault 0)
          (putUpdate "42" (Except.ok ⟨none, some "a", some "b", some 1, none⟩))
        = ([], ⟨404, Payload.text "Shoe not found."⟩) := by
  decide

/-! ## Sequences of requests -/

theorem serve_create (c : Collection) (env : Env) (b : Except String ShoeJSON) :
    serve c env (postCreate b) = createShoeHandler c env (postCreate b) := by
  simp [serve, postCreate]

theorem serve_delete (c : Collection) (env : Env) (i : String) :
    serve c env (deleteByID i) = deleteShoeByID c env (deleteByID i) := by
  simp [serve, deleteByID]

theorem removeFirst_fresh_then (c : Collection) (a : Shoe) (l : Collection)
    (h : ¬ hasID c a.ID) : (removeFirst a.ID (c ++ a :: l)).1 = c ++ l := by
  rw [removeFirst_append_of_not_hasID h]
  simp [removeFirst]

/-- C4 (amended): when the id generated for A is the id of no stored record and differs
from the id generated for B, then creating A and B in either order and deleting A by the
id its create returned, all served by a healthy driver, leaves the earlier records
followed by B, and GET /getall answers 200 with exactly that list. -/
theorem list_after_create_delete (c : Collection) (eA eB eD eL : Env) (jA jB : ShoeJSON)
    (hA : eA.fault1 = none) (hB : eB.fault1 = none) (hD : eD.fault1 = none)
    (hL : eL.fault1 = none)
    (hfresh : ¬ hasID c (generateID eA.draw))
    (hdiff : generateID eA.draw ≠ generateID eB.draw) :
    (createShoeHandler c eA (postCreate (Except.ok jA))).2
        = ⟨200, Payload.shoe (created eA.draw jA)⟩ ∧
      (createShoeHandler (c ++ [created eB.draw jB]) eA (postCreate (Except.ok jA))).2
        = ⟨200, Payload.shoe (created eA.draw jA)⟩ ∧
      getAllShoes
          (run c [(eA, postCreate (Except.ok jA)), (eB, postCreate (Except.ok jB)),
            (eD, deleteByID (created eA.draw jA).ID)]) eL getAll
        = (c ++ [created eB.draw jB], ⟨200, Payload.shoes (c ++ [created eB.draw jB])⟩) ∧
      getAllShoes
          (run c [(eB, postCreate (Except.ok jB)), (eA, postCreate (Except.ok jA)),
            (eD, deleteByID (created eA.draw jA).ID)]) eL getAll
        = (c ++ [created eB.draw jB], ⟨200, Payload.shoes (c ++ [created eB.draw jB])⟩) := by
  have hne : (created eA.draw jA).ID ≠ "" := generateID_ne_empty _
  have hfreshA : ¬ hasID c (created eA.draw jA).ID := hfresh
  have hAB : run c [(eA, postCreate (Except.ok jA)), (eB, postCreate (Except.ok jB)),
      (eD, deleteByID (created eA.draw jA).ID)] = c ++ [created eB.draw jB] := by
    simp only [run, serve_create, serve_delete, create_ok _ _ _ hA, create_ok _ _ _ hB,
      delete_ok _ _ _ hne hD, List.append_assoc, List.singleton_append]
    exact removeFirst_fresh_then c _ _ hfreshA
  have hBA : run c [(eB, postCreate (Except.ok jB)), (eA, postCreate (Except.ok jA)),
      (eD, deleteByID (created eA.draw jA).ID)] = c ++ [created eB.draw jB] := by
    simp only [run, serve_create, serve_delete, create_ok _ _ _ hA, create_ok _ _ _ hB,
      delete_ok _ _ _ hne hD, List.append_assoc, List.singleton_append]
    have hcB : ¬ hasID (c ++ [created eB.draw jB]) (created eA.draw jA).ID := by
      rw [hasID_append, not_or]
      refine ⟨hfreshA, ?_⟩
      simp only [hasID, List.mem_singleton, exists_eq_left]
      exact fun e => hdiff e.symm
    have := removeFirst_fresh_then (c ++ [created eB.draw jB]) (created eA.draw jA) [] hcB
    simpa using this
  rw [hAB, hBA, create_ok _ _ _ hA, create_ok _ _ _ hA]
  exact ⟨rfl, rfl, getAll_ok _ eL hL, getAll_ok _ eL hL⟩

/-- C4 as stated fails: on the empty collection, B and then A are created, both drawing
7; DELETE /delete?id=7, the id that the create of A returned, removes B, and GET /getall
answers 200 with A alone. -/
theorem list_keeps_deleted_record :
    createShoeHandler [⟨"7", "b", "b", 2, ⟨0⟩⟩] (noFault 7)
          (postCreate (Except.ok ⟨none, some "a", some "a", some 1, none⟩))
        = ([⟨"7", "b", "b", 2, ⟨0⟩⟩, ⟨"7", "a", "a", 1, ⟨0⟩⟩],
            ⟨200, Payload.shoe ⟨"7", "a", "a", 1, ⟨0⟩⟩⟩) ∧
      getAllShoes
          (run [] [(noFault 7, postCreate (Except.ok ⟨none, some "b", some "b", some 2, none⟩)),
            (noFault 7, postCreate (Except.ok ⟨none, some "a", some "a", some 1, none⟩)),
            (noFault 0, deleteByID "7")]) (noFault 0) getAll
        = ([⟨"7", "a", "a", 1, ⟨0⟩⟩], ⟨200, Payload.shoes [⟨"7", "a", "a", 1, ⟨0⟩⟩]⟩) := by
  decide

theorem createShoeHandler_collection (c : Collection) (env : Env) (r : Request) :
    (createShoeHandler c env r).1 = c ∨
      ∃ shoe : Shoe, shoe.ID = generateID env.draw ∧
        (createShoeHandler c env r).1 = c ++ [shoe] := by
  unfold createShoeHandler
  split
  · exact Or.inl rfl
  · cases hd : decode r.Body Shoe.zero with
    | error e => exact Or.inl rfl
    | ok decoded =>
      cases hf : env.fault1 with
      | some e => left; simp [insertOne, hf]
      | none =>
        right
        exact ⟨⟨generateID env.draw, decoded.Name, decoded.Brand, decoded.Size,
          decoded.Price⟩, rfl, by simp [insertOne, hf]⟩

theorem updateShoeByID_ids (c : Collection) (env : Env) (r : Request) :
    (updateShoeByID c env r).1.map Shoe.ID = c.map Shoe.ID := by
  unfold updateShoeByID
  split
  · rfl
  · simp only
    split
    · rfl
    · cases hd : decode r.Body Shoe.zero with
      | error e => rfl
      | ok u =>
        cases hf : env.fault1 with
        | some e => simp [updateOne, hf]
        | none =>
          simp only [updateOne, hf]
          split
          · exact setFirst_ids _ _ _ _ _ _
          · split <;> exact setFirst_ids _ _ _ _ _ _

theorem deleteShoeByID_sublist (c : Collection) (env : Env) (r : Request) :
    List.Sublist (deleteShoeByID c env r).1 c := by
  unfold deleteShoeByID
  split
  · exact List.Sublist.refl _
  · simp only
    split
    · exact List.Sublist.refl _
    · cases hf : env.fault1 with
      | some e => simp [deleteOne]
      | none => simpa [deleteOne] using removeFirst_sublist _ c

theorem getAllShoes_collection (c : Collection) (env : Env) (r : Request) :
    (getAllShoes c env r).1 = c := by
  unfold getAllShoes
  split
  · rfl
  · cases hf : env.fault1 <;> simp [find]

theorem getShoeByID_collection (c : Collection) (env : Env) (r : Request) :
    (getShoeByID c env r).1 = c := by
  unfold getShoeByID
  split
  · rfl
  · simp only
    split
    · rfl
    · split <;> rfl

theorem serve_uniqueIDs (c : Collection) (env : Env) (r : Request) (hu : uniqueIDs c)
    (hfresh : r.Path = "/create" → ¬ hasID c (generateID env.draw)) :
    uniqueIDs (serve c env r).1 := by
  unfold serve
  split_ifs with h1 h2 h3 h4 h5
  · rcases createShoeHandler_collection c env r with e | ⟨shoe, hid, e⟩
    · rw [e]; exact hu
    · rw [e]
      unfold uniqueIDs at hu ⊢
      rw [List.map_append, List.nodup_append]
      refine ⟨hu, by simp, ?_⟩
      intro a ha hb
      simp only [List.map_cons, List.map_nil, List.mem_singleton] at hb
      obtain ⟨x, hx, hxa⟩ := List.mem_map.mp ha
      exact hfresh h1 ⟨x, hx, by rw [hxa, hb, hid]⟩
  · rw [getAllShoes_collection]; exact hu
  · rw [getShoeByID_collection]; exact hu
  · exact List.Nodup.sublist ((deleteShoeByID_sublist c env r).map Shoe.ID) hu
  · unfold uniqueIDs
    rw [updateShoeByID_ids]
    exact hu
  · exact hu

theorem run_uniqueIDs (reqs : List (Env × Request)) :
    ∀ c : Collection, uniqueIDs c → freshCreates c reqs → uniqueIDs (run c reqs) := by
  induction reqs with
  | nil => intro c hu _; exact hu
  | cons p rest ih =>
    intro c hu hf
    obtain ⟨env, r⟩ := p
    exact ih _ (serve_uniqueIDs c env r hu hf.1) hf.2

theorem serve_ids_ne_empty (c : Collection) (env : Env) (r : Request)
    (h : "" ∉ c.map Shoe.ID) : "" ∉ (serve c env r).1.map Shoe.ID := by
  unfold serve
  split_ifs with h1 h2 h3 h4 h5
  · rcases createShoeHandler_collection c env r with e | ⟨shoe, hid, e⟩
    · rw [e]; exact h
    · rw [e, List.map_append, List.mem_append, not_or]
      refine ⟨h, ?_⟩
      simp only [List.map_cons, List.map_nil, List.mem_singleton, hid]
      exact fun e0 => generateID_ne_empty env.draw e0.symm
  · rw [getAllShoes_collection]; exact h
  · rw [getShoeByID_collection]; exact h
  · exact fun hm => h (((deleteShoeByID_sublist c env r).map Shoe.ID).subset hm)
  · rw [updateShoeByID_ids]; exact h
  · exact h

/-- No record of a collection reached from the empty one has the empty id. -/
theorem run_ids_ne_empty (reqs : List (Env × Request)) :
    ∀ c : Collection, "" ∉ c.map Shoe.ID → "" ∉ (run c reqs).map Shoe.ID := by
  induction reqs with
  | nil => intro c h; exact h
  | cons p rest ih =>
    intro c h
    obtain ⟨env, r⟩ := p
    exact ih _ (serve_ids_ne_empty c env r h)

/-- C9 (amended): in every collection reached from the empty one by a sequence of
requests in which each create, when it is served, generates an id that no stored record
has, no two stored records have the same id; update and delete never add an id. -/
theorem ids_unique_when_fresh (reqs : List (Env × Request))
    (hfresh : freshCreates [] reqs) : uniqueIDs (run [] reqs) :=
  run_uniqueIDs reqs [] (by simp [uniqueIDs]) hfresh

/-- C9 as stated fails: two creates that both draw 7, served from the empty collection,
leave two records with the id "7". -/
theorem two_creates_same_id :
    run [] [(noFault 7, postCreate (Except.ok ⟨none, some "a", some "b", some 1, none⟩)),
            (noFault 7, postCreate (Except.ok ⟨none, some "c", some "d", some 2, none⟩))]
        = [⟨"7", "a", "b", 1, ⟨0⟩⟩, ⟨"7", "c", "d", 2, ⟨0⟩⟩] ∧
      ¬ uniqueIDs
        (run [] [(noFault 7, postCreate (Except.ok ⟨none, some "a", some "b", some 1, none⟩)),
          (noFault 7, postCreate (Except.ok ⟨none, some "c", some "d", some 2, none⟩))]) := by
  decide

/-- C10: for every draw, `generateID` is the decimal rendering of `n = draw % 1000000`,
which is below 1000000: between 1 and 6 characters, every one an ASCII digit, the first
one `0` only when the whole string is "0", and parsing it as a decimal gives `n`. -/
theorem generateID_format (draw : Nat) :
    draw % 1000000 < 1000000 ∧
      (generateID draw).data = decimalDigits (draw % 1000000) ∧
      1 ≤ (generateID draw).length ∧ (generateID draw).length ≤ 6 ∧
      (∀ ch ∈ (generateID draw).data, ch.isDigit = true) ∧
      ((generateID draw).data.head? = some '0' → generateID draw = "0") ∧
      parseDecimal (generateID draw) = some (draw % 1000000) := by
  have hlt : draw % 1000000 < 1000000 := Nat.mod_lt _ (by decide)
  have hdata : (generateID draw).data = decimalDigits (draw % 1000000) := by
    rw [generateID, repr_data]
  have hlen : (generateID draw).length = (decimalDigits (draw % 1000000)).length := by
    rw [← hdata]; rfl
  refine ⟨hlt, hdata, ?_, ?_, ?_, ?_, ?_⟩
  · rw [hlen]
    exact List.length_pos.mpr (decimalDigits_ne_nil _)
  · rw [hlen]
    exact decimalDigits_length_le 5 _ (by simpa using hlt)
  · rw [hdata]
    exact decimalDigits_all_digit _
  · rw [hdata]
    intro h0
    by_cases hz : draw % 1000000 = 0
    · rw [generateID, hz]; rfl
    · exact absurd h0 (decimalDigits_head _ hz)
  · unfold parseDecimal
    rw [hdata, if_neg (decimalDigits_ne_nil _)]
    exact parseDigits_decimalDigits _

/-! ## The theorems at concrete inputs -/

theorem create_get_round_trip_witness :
    (createShoeHandler [⟨"7", "a", "b", 1, ⟨0⟩⟩] (noFault 8)
        (postCreate (Except.ok ⟨some "x", some "c", none, some 2, none⟩))).2.status = 200 ∧
      ¬ hasID [⟨"7", "a", "b", 1, ⟨0⟩⟩] (generateID 8) ∧
      (createShoeHandler [⟨"7", "a", "b", 1, ⟨0⟩⟩] (noFault 8)
        (postCreate (Except.ok ⟨some "x", some "c", none, some 2, none⟩))).2
        = ⟨200, Payload.shoe ⟨"8", "c", "", 2, ⟨0⟩⟩⟩ ∧
      getShoeByID [⟨"7", "a", "b", 1, ⟨0⟩⟩, ⟨"8", "c", "", 2, ⟨0⟩⟩] (noFault 0)
          (getByID "8")
        = ([⟨"7", "a", "b", 1, ⟨0⟩⟩, ⟨"8", "c", "", 2, ⟨0⟩⟩],
            ⟨200, Payload.shoe ⟨"8", "c", "", 2, ⟨0⟩⟩⟩) :=
  have h := create_get_round_trip [⟨"7", "a", "b", 1, ⟨0⟩⟩] (noFault 8)
    ⟨some "x", some "c", none, some 2, none⟩ (by decide) (by decide)
  ⟨by decide, by decide, h.1, h.2.2.2.2.2.2 (noFault 0) rfl⟩

theorem update_replaces_all_witness :
    hasID [⟨"7", "a", "b", 1, ⟨5⟩⟩, ⟨"8", "c", "d", 2, ⟨6⟩⟩] "8" ∧ "8" ≠ "" ∧
      (updateShoeByID [⟨"7", "a", "b", 1, ⟨5⟩⟩, ⟨"8", "c", "d", 2, ⟨6⟩⟩] (noFault 0)
        (putUpdate "8" (Except.ok ⟨some "9", some "e", none, none, none⟩))).2
        = ⟨200, Payload.shoe ⟨"8", "e", "", 0, ⟨0⟩⟩⟩ :=
  ⟨by decide, by decide,
    (update_replaces_all [⟨"7", "a", "b", 1, ⟨5⟩⟩, ⟨"8", "c", "d", 2, ⟨6⟩⟩] (noFault 0) "8"
      ⟨some "9", some "e", none, none, none⟩ (by decide) (by decide) rfl rfl).1⟩

theorem delete_removes_record_witness :
    idCount [⟨"7", "a", "b", 1, ⟨5⟩⟩, ⟨"8", "c", "d", 2, ⟨6⟩⟩] "7" = 1 ∧
      (deleteShoeByID [⟨"7", "a", "b", 1, ⟨5⟩⟩, ⟨"8", "c", "d", 2, ⟨6⟩⟩] (noFault 0)
        (deleteByID "7")).2.status = 200 ∧
      ¬ hasID (deleteShoeByID [⟨"7", "a", "b", 1, ⟨5⟩⟩, ⟨"8", "c", "d", 2, ⟨6⟩⟩] (noFault 0)
        (deleteByID "7")).1 "7" :=
  ⟨by decide, by decide,
    (delete_removes_record [⟨"7", "a", "b", 1, ⟨5⟩⟩, ⟨"8", "c", "d", 2, ⟨6⟩⟩] (noFault 0) "7"
      (by decide) (by decide)).1⟩

theorem list_after_create_delete_witness :
    ¬ hasID [⟨"7", "a", "b", 1, ⟨5⟩⟩] (generateID 8) ∧ generateID 8 ≠ generateID 9 ∧
      getAllShoes
          (run [⟨"7", "a", "b", 1, ⟨5⟩⟩]
            [(noFault 9, postCreate (Except.ok ⟨none, some "B", none, none, none⟩)),
             (noFault 8, postCreate (Except.ok ⟨none, some "A", none, none, none⟩)),
             (noFault 0, deleteByID (created 8 ⟨none, some "A", none, none, none⟩).ID)])
          (noFault 0) getAll
        = ([⟨"7", "a", "b", 1, ⟨5⟩⟩] ++ [created 9 ⟨none, some "B", none, none, none⟩],
            ⟨200, Payload.shoes ([⟨"7", "a", "b", 1, ⟨5⟩⟩]
              ++ [created 9 ⟨none, some "B", none, none, none⟩])⟩) :=
  ⟨by decide, by decide,
    (list_after_create_delete [⟨"7", "a", "b", 1, ⟨5⟩⟩] (noFault 8) (noFault 9) (noFault 0)
      (noFault 0) ⟨none, some "A", none, none, none⟩ ⟨none, some "B", none, none, none⟩
      rfl rfl rfl rfl (by decide) (by decide)).2.2.2⟩

theorem not_found_get_update_witness :
    "8" ≠ "" ∧ queryGet "id" (putUpdate "8" (Except.ok ⟨none, some "e", none, none, none⟩)).Query
        = "8" ∧
      ¬ hasID [⟨"7", "a", "b", 1, ⟨5⟩⟩] "8" ∧
      getShoeByID [⟨"7", "a", "b", 1, ⟨5⟩⟩] (noFault 0) (getByID "8")
        = ([⟨"7", "a", "b", 1, ⟨5⟩⟩], ⟨404, Payload.text "Shoe not found."⟩) ∧
      updateShoeByID [⟨"7", "a", "b", 1, ⟨5⟩⟩] (noFault 0)
          (putUpdate "8" (Except.ok ⟨none, some "e", none, none, none⟩))
        = ([⟨"7", "a", "b", 1, ⟨5⟩⟩], ⟨404, Payload.text "Shoe not found."⟩) :=
  ⟨by decide, by decide, by decide,
    (not_found_get_update [⟨"7", "a", "b", 1, ⟨5⟩⟩] (noFault 0) (getByID "8") "8"
      (by decide) (by decide) (by decide)).1 rfl,
    (not_found_get_update [⟨"7", "a", "b", 1, ⟨5⟩⟩] (noFault 0)
      (putUpdate "8" (Except.ok ⟨none, some "e", none, none, none⟩)) "8"
      (by decide) (by decide) (by decide)).2 rfl _ rfl rfl⟩

theorem method_enforcement_witness :
    "DELETE" ≠ "POST" ∧
      createShoeHandler [⟨"7", "a", "b", 1, ⟨5⟩⟩] (noFault 3)
          ⟨"DELETE", "/create", [("id", "7")], Except.ok ⟨none, some "e", none, none, none⟩⟩
        = ([⟨"7", "a", "b", 1, ⟨5⟩⟩], ⟨405, Payload.text "Only POST method is supported."⟩) ∧
      "POST" ≠ "DELETE" ∧
      serve [⟨"7", "a", "b", 1, ⟨5⟩⟩] (noFault 3)
          ⟨"POST", "/delete", [("id", "7")], Except.ok ⟨none, some "e", none, none, none⟩⟩
        = ([⟨"7", "a", "b", 1, ⟨5⟩⟩],
            ⟨405, Payload.text "Only DELETE method is supported."⟩) :=
  ⟨by decide,
    ((method_enforcement [⟨"7", "a", "b", 1, ⟨5⟩⟩] (noFault 3)
      ⟨"DELETE", "/create", [("id", "7")], Except.ok ⟨none, some "e", none, none, none⟩⟩).1
      (by decide)).1,
    by decide,
    ((method_enforcement [⟨"7", "a", "b", 1, ⟨5⟩⟩] (noFault 3)
      ⟨"POST", "/delete", [("id", "7")], Except.ok ⟨none, some "e", none, none, none⟩⟩).2.2.2.2
      (by decide)).2 rfl⟩

theorem missing_id_witness :
    queryGet "id" [("name", "a")] = "" ∧
      updateShoeByID [⟨"7", "a", "b", 1, ⟨5⟩⟩] (noFault 0)
          ⟨"PUT", "/update", [("name", "a")], Except.error "unexpected EOF"⟩
        = ([⟨"7", "a", "b", 1, ⟨5⟩⟩], ⟨400, Payload.text "ID is required."⟩) ∧
      queryGet "id" [("id", "")] = "" ∧
      deleteShoeByID [⟨"7", "a", "b", 1, ⟨5⟩⟩] (noFault 0) (deleteByID "")
        = ([⟨"7", "a", "b", 1, ⟨5⟩⟩], ⟨400, Payload.text "ID is required."⟩) :=
  ⟨by decide,
    (missing_id [⟨"7", "a", "b", 1, ⟨5⟩⟩] (noFault 0)
      ⟨"PUT", "/update", [("name", "a")], Except.error "unexpected EOF"⟩ (by decide)).2.1 rfl,
    by decide,
    (missing_id [⟨"7", "a", "b", 1, ⟨5⟩⟩] (noFault 0) (deleteByID "") (by decide)).2.2 rfl⟩

theorem ids_unique_when_fresh_witness :
    freshCreates []
        [(noFault 7, postCreate (Except.ok ⟨none, some "a", none, none, none⟩)),
         (noFault 8, postCreate (Except.ok ⟨none, some "b", none, none, none⟩)),
         (noFault 0, putUpdate "7" (Except.ok ⟨none, some "c", none, none, none⟩)),
         (noFault 0, deleteByID "8")] ∧
      uniqueIDs
        (run []
          [(noFault 7, postCreate (Except.ok ⟨none, some "a", none, none, none⟩)),
           (noFault 8, postCreate (Except.ok ⟨none, some "b", none, none, none⟩)),
           (noFault 0, putUpdate "7" (Except.ok ⟨none, some "c", none, none, none⟩)),
           (noFault 0, deleteByID "8")]) :=
  ⟨by decide, ids_unique_when_fresh _ (by decide)⟩

end ShoeStore
